import Mathlib

/-!
Verification of the GlobalITZone backend's booking-lifecycle and
product-catalog subsystem.

The development shallowly embeds the JavaScript sources:
- `src/models/Booking.js` (schema defaults/validation, `generateCouponCode`,
  `updateStatus`),
- `src/models/Product.js` (schema fields used by the routes),
- the bookings router (`POST /api/bookings`, `GET /api/bookings/:id`,
  `PATCH /api/bookings/:id/cancel`, `PATCH /api/bookings/:id/complete`,
  `GET /api/bookings/coupon/:couponCode`),
- the products router (`GET /api/products/:id`, `DELETE /api/products/:id`).

Mongo documents become Lean structures; the database becomes an explicit
`Store` value threaded through each handler; `Date.now()` and
`Math.random()` become explicit parameters (`now : Nat`, and the base-36
fraction digits of the random number); a handler returns a `Resp` value
mirroring the HTTP status / JSON body the route sends, paired with the
store after the request.  JavaScript string operations used by the code
(`toUpperCase`, `toString(36)`, `substring`, truthiness of values,
mongoose's `trim`) are modelled for the ASCII strings that occur here.
-/

/-! ## JavaScript primitives -/

/-- Base-36 digit characters as produced by JS `Number.prototype.toString(36)`:
`0`-`9` then lowercase `a`-`z`. -/
def digitChar36 (d : Nat) : Char :=
  if d < 10 then Char.ofNat (48 + d) else Char.ofNat (87 + d)

/-- Accumulating base-36 digit expansion; `fuel` bounds the recursion and any
`fuel ≥ n` computes the digits of `n`. -/
def toBase36Go : Nat → Nat → List Char → List Char
  | 0, _, acc => acc
  | fuel + 1, n, acc =>
    if n = 0 then acc else toBase36Go fuel (n / 36) (digitChar36 (n % 36) :: acc)

/-- JS `n.toString(36)` for a natural number `n` (lowercase digits). -/
def natToBase36 (n : Nat) : String :=
  if n = 0 then "0" else String.mk (toBase36Go n n [])

/-- JS `x.toString(36)` for `x ∈ [0,1)` given as its list of base-36 fraction
digits with no trailing zeros (`[]` encodes `x = 0`, rendered `"0"`;
otherwise `"0."` followed by the digits). -/
def fracToString36 (digits : List Nat) : String :=
  if digits = [] then "0" else "0." ++ String.mk (digits.map digitChar36)

/-- JS `s.substring(a, b)` for `a ≤ b` (clipped at the string's end). -/
def jsSubstring (s : String) (a b : Nat) : String :=
  String.mk ((s.data.drop a).take (b - a))

/-- JS `s.toUpperCase()` on ASCII strings (per-character `Char.toUpper`). -/
def jsToUpper (s : String) : String :=
  String.mk (s.data.map Char.toUpper)

/-- JS `s.trim()` / mongoose `trim: true`: strip leading and trailing
whitespace. -/
def jsTrim (s : String) : String :=
  String.mk (((s.data.dropWhile Char.isWhitespace).reverse.dropWhile
    Char.isWhitespace).reverse)

/-- JS truthiness of an optional string (`undefined` and `""` are falsy). -/
def truthyS : Option String → Bool
  | none => false
  | some s => s ≠ ""

/-- JS truthiness of an optional number (`undefined` and `0` are falsy). -/
def truthyN : Option Nat → Bool
  | none => false
  | some n => n ≠ 0

/-! ## Data model (`src/models/Product.js`, `src/models/Booking.js`) -/

/-- A Product document; only the fields the verified routes read.
`availability` is the free string field constrained by the schema enum
`["Available", "Out of Stock", "Discontinued"]`. -/
structure Product where
  id : Nat
  name : String
  description : String
  category : String
  availability : String
  images : List String
  imagePublicIds : List String
  isActive : Bool
  views : Nat
  likes : Nat
deriving DecidableEq

/-- A Booking document, mirroring `bookingSchema`.  `status` is the string
field constrained by the enum `["confirmed", "cancelled", "completed"]`;
`cancelledAt`, `completedAt`, `cancellationReason` are the optional fields. -/
structure Booking where
  id : Nat
  productId : Nat
  productName : String
  productImage : String
  productCategory : String
  userId : Nat
  customerName : String
  customerPhone : String
  customerAddress : String
  quantity : Nat
  bookingDate : Nat
  orderDate : Nat
  actualPrice : Nat
  strikePrice : Nat
  sellingPrice : Nat
  totalAmount : Nat
  discountPercentage : Nat
  couponCode : String
  status : String
  notes : Option String
  cancelledAt : Option Nat
  cancellationReason : Option String
  completedAt : Option Nat
deriving DecidableEq

/-- The authenticated identity attached by `authenticateToken`
(`req.user`): Mongo id and role string (`"user"` or `"admin"`). -/
structure RequestUser where
  uid : Nat
  role : String
deriving DecidableEq

/-- The persistent store: the `products` and `bookings` collections. -/
structure Store where
  products : List Product
  bookings : List Booking
deriving DecidableEq

/-- `Product.findById`. -/
def findProduct (s : Store) (pid : Nat) : Option Product :=
  s.products.find? (fun p => p.id == pid)

/-- `Booking.findById`. -/
def findBooking (s : Store) (bid : Nat) : Option Booking :=
  s.bookings.find? (fun b => b.id == bid)

/-- Persist a mutated booking document (`booking.save()`): replace the
document with the same `_id`. -/
def saveBooking (s : Store) (b : Booking) : Store :=
  { s with bookings := s.bookings.map (fun x => if x.id == b.id then b else x) }

/-- Persist a mutated product document (`product.save()`). -/
def saveProduct (s : Store) (p : Product) : Store :=
  { s with products := s.products.map (fun x => if x.id == p.id then p else x) }

/-! ## Responses and store errors -/

/-- The HTTP outcome of a handler: `ok status body` for a success JSON
response, `fail status message error` for an error JSON response
(`error` is the optional `error: error.message` field some handlers add). -/
inductive Resp (α : Type) where
  | ok (status : Nat) (body : α) : Resp α
  | fail (status : Nat) (message : String) (error : Option String) : Resp α
deriving DecidableEq

/-- An error surfaced by the persistence layer during `Booking.create`:
mongoose validation failure or the MongoDB duplicate-key error raised by
the unique index on `couponCode`. -/
inductive DbError where
  | validation (msg : String) : DbError
  | duplicateKey (msg : String) : DbError
deriving DecidableEq

/-- `error.message` of a store error. -/
def DbError.message : DbError → String
  | .validation m => m
  | .duplicateKey m => m

/-! ## Coupon generation and status update (`src/models/Booking.js`) -/

/-- `generateCouponCode` from `Booking.js`:
`prefix = "GIT"`, `timestamp = Date.now().toString(36).toUpperCase()`,
`random = Math.random().toString(36).substring(2, 6).toUpperCase()`,
result `` `${prefix}-${timestamp}-${random}` ``.  `now` is `Date.now()`;
`rand` is the base-36 fraction-digit list of `Math.random()`. -/
def generateCouponCode (now : Nat) (rand : List Nat) : String :=
  let timestamp := jsToUpper (natToBase36 now)
  let random := jsToUpper (jsSubstring (fracToString36 rand) 2 6)
  "GIT" ++ "-" ++ timestamp ++ "-" ++ random

/-- `bookingSchema.methods.updateStatus` minus the final `save()` (the
handlers' store updates are modelled separately): set `status`; stamp
`cancelledAt` when the new status is `"cancelled"`, `completedAt` when it is
`"completed"`. -/
def Booking.updateStatus (b : Booking) (newStatus : String) (now : Nat) : Booking :=
  let b1 := { b with status := newStatus }
  if newStatus = "cancelled" then { b1 with cancelledAt := some now }
  else if newStatus = "completed" then { b1 with completedAt := some now }
  else b1

/-! ## `Booking.create` (mongoose defaults + validation + unique index) -/

/-- The document literal passed to `Booking.create` by the POST handler:
`productName`/`productImage`/`productCategory` are whatever the request body
held (possibly absent), the rest are the already-validated values. -/
structure BookingDoc where
  productId : Nat
  productName : Option String
  productImage : Option String
  productCategory : Option String
  userId : Nat
  customerName : String
  customerPhone : String
  customerAddress : String
  quantity : Nat
  bookingDate : Nat
  actualPrice : Nat
  strikePrice : Nat
  sellingPrice : Nat
  totalAmount : Nat
  discountPercentage : Nat
  status : String
deriving DecidableEq

/-- `Booking.create(doc)`: run mongoose validation (required string fields
present and nonempty after `trim`, `quantity ≥ 1`, `discountPercentage ≤ 100`,
`status` in its enum), apply schema defaults (`couponCode` generated and
uppercased by the `uppercase: true` setter, `orderDate = Date.now()`,
timestamps unset), then insert — the unique index on `couponCode` rejects a
code already present with a duplicate-key error. -/
def bookingCreate (s : Store) (doc : BookingDoc) (now : Nat) (rand : List Nat)
    (newId : Nat) : Except DbError (Booking × Store) :=
  match doc.productName, doc.productImage, doc.productCategory with
  | some pn, some pimg, some pcat =>
    if pn = "" ∨ pimg = "" ∨ pcat = "" then
      .error (.validation "Booking validation failed")
    else if jsTrim doc.customerName = "" ∨ jsTrim doc.customerPhone = "" ∨
        jsTrim doc.customerAddress = "" then
      .error (.validation "Booking validation failed")
    else if doc.quantity < 1 then
      .error (.validation "Booking validation failed")
    else if doc.discountPercentage > 100 then
      .error (.validation "Booking validation failed")
    else if ¬(doc.status = "confirmed" ∨ doc.status = "cancelled" ∨
        doc.status = "completed") then
      .error (.validation "Booking validation failed")
    else
      let code := jsToUpper (generateCouponCode now rand)
      if s.bookings.any (fun b => b.couponCode == code) then
        .error (.duplicateKey
          "E11000 duplicate key error collection: bookings index: couponCode_1")
      else
        let b : Booking :=
          { id := newId
            productId := doc.productId
            productName := pn
            productImage := pimg
            productCategory := pcat
            userId := doc.userId
            customerName := jsTrim doc.customerName
            customerPhone := jsTrim doc.customerPhone
            customerAddress := jsTrim doc.customerAddress
            quantity := doc.quantity
            bookingDate := doc.bookingDate
            orderDate := now
            actualPrice := doc.actualPrice
            strikePrice := doc.strikePrice
            sellingPrice := doc.sellingPrice
            totalAmount := doc.totalAmount
            discountPercentage := doc.discountPercentage
            couponCode := code
            status := doc.status
            notes := none
            cancelledAt := none
            cancellationReason := none
            completedAt := none }
        .ok (b, { s with bookings := s.bookings ++ [b] })
  | _, _, _ => .error (.validation "Booking validation failed")

/-! ## Bookings router -/

/-- The destructured `req.body` of `POST /api/bookings`; every field may be
absent. -/
structure CreateReq where
  productId : Option Nat
  productName : Option String
  productImage : Option String
  productCategory : Option String
  customerName : Option String
  customerPhone : Option String
  customerAddress : Option String
  quantity : Option Nat
  bookingDate : Option Nat
  actualPrice : Option Nat
  strikePrice : Option Nat
  sellingPrice : Option Nat
  totalAmount : Option Nat
  discountPercentage : Option Nat
deriving DecidableEq

/-- The handler's required-field truthiness check:
`!productId || !customerName || !customerPhone || !customerAddress ||
!quantity || !bookingDate` fails. -/
def requiredTruthy (r : CreateReq) : Bool :=
  truthyN r.productId && truthyS r.customerName && truthyS r.customerPhone &&
    truthyS r.customerAddress && truthyN r.quantity && truthyN r.bookingDate

/-- The object literal the handler passes to `Booking.create`:
snapshot fields straight from the body, `userId: req.user._id`,
`x || 0` defaulting for each pricing field, `status: "confirmed"`. -/
def reqDoc (u : RequestUser) (r : CreateReq) : BookingDoc :=
  { productId := r.productId.getD 0
    productName := r.productName
    productImage := r.productImage
    productCategory := r.productCategory
    userId := u.uid
    customerName := r.customerName.getD ""
    customerPhone := r.customerPhone.getD ""
    customerAddress := r.customerAddress.getD ""
    quantity := r.quantity.getD 0
    bookingDate := r.bookingDate.getD 0
    actualPrice := r.actualPrice.getD 0
    strikePrice := r.strikePrice.getD 0
    sellingPrice := r.sellingPrice.getD 0
    totalAmount := r.totalAmount.getD 0
    discountPercentage := r.discountPercentage.getD 0
    status := "confirmed" }

/-- `POST /api/bookings`: required-field check (400), product existence
(404), `product.availability !== "Available"` (400), then `Booking.create`;
a store error is caught and returned as 500 `"Failed to create booking"`
with `error: error.message`. -/
def createBookingHandler (s : Store) (u : RequestUser) (r : CreateReq)
    (now : Nat) (rand : List Nat) (newId : Nat) : Resp Booking × Store :=
  if ¬(requiredTruthy r = true) then
    (.fail 400 "Please provide all required fields" none, s)
  else
    match findProduct s (r.productId.getD 0) with
    | none => (.fail 404 "Product not found" none, s)
    | some p =>
      if p.availability ≠ "Available" then
        (.fail 400 "Product is not available for booking" none, s)
      else
        match bookingCreate s (reqDoc u r) now rand newId with
        | .error e => (.fail 500 "Failed to create booking" (some e.message), s)
        | .ok (b, s1) => (.ok 201 b, s1)

/-- `GET /api/bookings/:id`: 404 when absent; 403 unless the requester is
admin or the booking's owner; else the booking. -/
def getBookingHandler (s : Store) (u : RequestUser) (bid : Nat) : Resp Booking :=
  match findBooking s bid with
  | none => .fail 404 "Booking not found" none
  | some b =>
    let isAdmin := u.role == "admin"
    let isOwner := b.userId == u.uid
    if ¬isAdmin ∧ ¬isOwner then
      .fail 403 "Not authorized to view this booking" none
    else
      .ok 200 b

/-- `PATCH /api/bookings/:id/cancel`: 404 when absent; 403 unless admin or
owner; 400 when already cancelled; 400 when completed; otherwise
`updateStatus("cancelled")` (which stamps `cancelledAt` and saves), then set
`cancellationReason` from `req.body.reason` or the role-based default and
save again. -/
def cancelBookingHandler (s : Store) (u : RequestUser) (bid : Nat)
    (reason : Option String) (now : Nat) : Resp Booking × Store :=
  match findBooking s bid with
  | none => (.fail 404 "Booking not found" none, s)
  | some b =>
    let isAdmin := u.role == "admin"
    let isOwner := b.userId == u.uid
    if ¬isAdmin ∧ ¬isOwner then
      (.fail 403 "Not authorized to cancel this booking" none, s)
    else if b.status = "cancelled" then
      (.fail 400 "Booking is already cancelled" none, s)
    else if b.status = "completed" then
      (.fail 400 "Cannot cancel a completed booking" none, s)
    else
      let b1 := b.updateStatus "cancelled" now
      let s1 := saveBooking s b1
      let r := match reason with
        | some rs => if rs ≠ "" then rs
            else if isAdmin then "Cancelled by Admin" else "Cancelled by customer"
        | none => if isAdmin then "Cancelled by Admin" else "Cancelled by customer"
      let b2 := { b1 with cancellationReason := some r }
      let s2 := saveBooking s1 b2
      (.ok 200 b2, s2)

/-- `PATCH /api/bookings/:id/complete`: 403 unless admin; 404 when absent;
400 when already completed; 400 when cancelled; otherwise
`updateStatus("completed")` (stamping `completedAt`) and save. -/
def completeBookingHandler (s : Store) (u : RequestUser) (bid : Nat)
    (now : Nat) : Resp Booking × Store :=
  if u.role ≠ "admin" then
    (.fail 403 "Not authorized. Admin access required." none, s)
  else
    match findBooking s bid with
    | none => (.fail 404 "Booking not found" none, s)
    | some b =>
      if b.status = "completed" then
        (.fail 400 "Booking is already marked as completed" none, s)
      else if b.status = "cancelled" then
        (.fail 400 "Cannot complete a cancelled booking" none, s)
      else
        let b1 := b.updateStatus "completed" now
        let s1 := saveBooking s b1
        (.ok 200 b1, saveBooking s1 b1)

/-- `GET /api/bookings/coupon/:couponCode`:
`findOne({ couponCode: req.params.couponCode.toUpperCase() })`, 404 when no
booking holds the code, 403 unless admin or owner, else the booking. -/
def couponLookupHandler (s : Store) (u : RequestUser) (code : String) :
    Resp Booking :=
  match s.bookings.find? (fun b => b.couponCode == jsToUpper code) with
  | none => .fail 404 "Booking not found with this coupon code" none
  | some b =>
    let isAdmin := u.role == "admin"
    let isOwner := b.userId == u.uid
    if ¬isAdmin ∧ ¬isOwner then
      .fail 403 "Not authorized to view this booking" none
    else
      .ok 200 b

/-! ## Products router -/

/-- `$inc: { views: 1 }` on the product with the given id. -/
def incViews (s : Store) (pid : Nat) : Store :=
  { s with
    products := s.products.map
      (fun p => if p.id == pid then { p with views := p.views + 1 } else p) }

/-- `GET /api/products/:id`: 404 when absent, 404 `"Product not available"`
when `isActive` is false, then `await Product.findByIdAndUpdate(id,
{ $inc: { views: 1 } })` — `incFails` says whether that awaited store call
rejects; a rejection is caught by the surrounding `catch` and answered with
500, so the read fails; otherwise the (pre-increment) product is returned
and the counter is bumped. -/
def getProductHandler (s : Store) (pid : Nat) (incFails : Bool) :
    Resp Product × Store :=
  match findProduct s pid with
  | none => (.fail 404 "Product not found" none, s)
  | some p =>
    if ¬p.isActive then
      (.fail 404 "Product not available" none, s)
    else if incFails then
      (.fail 500 "Server error while fetching product" none, s)
    else
      (.ok 200 p, incViews s pid)

/-- `DELETE /api/products/:id` (admin-gated by middleware): 404 when absent;
`await Promise.all(imagePublicIds.map(deleteImage))` — `imgDelFails` says
whether that awaited cleanup rejects (caught as 500 before any mutation);
otherwise set `isActive = false` and save. -/
def softDeleteProductHandler (s : Store) (pid : Nat) (imgDelFails : Bool) :
    Resp String × Store :=
  match findProduct s pid with
  | none => (.fail 404 "Product not found" none, s)
  | some p =>
    if p.imagePublicIds.length > 0 ∧ imgDelFails then
      (.fail 500 "Server error while deleting product" none, s)
    else
      let p1 := { p with isActive := false }
      (.ok 200 "Product deleted successfully", saveProduct s p1)

/-! ## Spec-side predicates (formalising the claims' vocabulary) -/

/-- A character in the class `[A-Z0-9]`. -/
def isUpperAlnumChar (c : Char) : Bool :=
  ('A' ≤ c && c ≤ 'Z') || ('0' ≤ c && c ≤ '9')

/-- The spec's coupon regex `GIT-[A-Z0-9]+-[A-Z0-9]{4}`, anchored, on a
character list: literal `GIT-`, a nonempty alnum block, `-`, exactly four
alnum characters. -/
def couponPatternExact (l : List Char) : Bool :=
  match l with
  | g :: i :: t :: d1 :: rest =>
    g == 'G' && i == 'I' && t == 'T' && d1 == '-' &&
      (let tb := rest.takeWhile (fun c => c != '-')
       match rest.dropWhile (fun c => c != '-') with
       | d2 :: r =>
         d2 == '-' && !tb.isEmpty && tb.all isUpperAlnumChar &&
           r.length == 4 && r.all isUpperAlnumChar
       | [] => false)
  | _ => false

/-- `matchesCouponPattern s` decides `s =~ /^GIT-[A-Z0-9]+-[A-Z0-9]{4}$/`. -/
def matchesCouponPattern (s : String) : Bool :=
  couponPatternExact s.data

/-- The relaxed pattern `GIT-[A-Z0-9]+-[A-Z0-9]{0,4}`: the random suffix may
be shorter than four characters. -/
def couponPatternUpTo (l : List Char) : Bool :=
  match l with
  | g :: i :: t :: d1 :: rest =>
    g == 'G' && i == 'I' && t == 'T' && d1 == '-' &&
      (let tb := rest.takeWhile (fun c => c != '-')
       match rest.dropWhile (fun c => c != '-') with
       | d2 :: r =>
         d2 == '-' && !tb.isEmpty && tb.all isUpperAlnumChar &&
           decide (r.length ≤ 4) && r.all isUpperAlnumChar
       | [] => false)
  | _ => false

/-- `matchesCouponPatternUpTo s` decides `s =~ /^GIT-[A-Z0-9]+-[A-Z0-9]{0,4}$/`. -/
def matchesCouponPatternUpTo (s : String) : Bool :=
  couponPatternUpTo s.data

/-- The timestamp invariant of the spec: `cancelledAt` set iff cancelled,
`completedAt` set iff completed. -/
def timestampInv (b : Booking) : Prop :=
  (b.cancelledAt.isSome = true ↔ b.status = "cancelled") ∧
  (b.completedAt.isSome = true ↔ b.status = "completed")

instance (b : Booking) : Decidable (timestampInv b) := by
  unfold timestampInv; infer_instance

/-- The store-wide timestamp invariant. -/
def storeTimestampInv (s : Store) : Prop :=
  ∀ b ∈ s.bookings, timestampInv b

instance (s : Store) : Decidable (storeTimestampInv s) := by
  unfold storeTimestampInv; exact List.decidableBAll _ _

/-- The handlers' owner-or-admin authorization predicate. -/
def isOwnerOrAdmin (u : RequestUser) (b : Booking) : Bool :=
  (u.role == "admin") || (b.userId == u.uid)

/-- The booking carried by a successful (2xx) handler response. -/
def createdBooking (r : Resp Booking × Store) : Option Booking :=
  match r.1 with
  | .ok _ b => some b
  | .fail _ _ _ => none

/-! ## Concrete instances used by witnesses and counterexamples -/

/-- An active, available catalog product. -/
def exProduct : Product :=
  { id := 1, name := "Laptop A", description := "A used laptop",
    category := "Laptops", availability := "Available",
    images := ["img-a-1", "img-a-2"], imagePublicIds := ["pub-a-1", "pub-a-2"],
    isActive := true, views := 3, likes := 0 }

/-- An out-of-stock product. -/
def exProductOff : Product :=
  { id := 2, name := "Camera B", description := "A camera",
    category := "Security", availability := "Out of Stock",
    images := ["img-b-1", "img-b-2"], imagePublicIds := ["pub-b-1", "pub-b-2"],
    isActive := true, views := 0, likes := 0 }

/-- A soft-deleted product whose `availability` still reads `"Available"`. -/
def exProductInactive : Product :=
  { id := 3, name := "Router C", description := "A router",
    category := "Networking", availability := "Available",
    images := ["img-c-1", "img-c-2"], imagePublicIds := ["pub-c-1", "pub-c-2"],
    isActive := false, views := 7, likes := 1 }

/-- A regular authenticated user. -/
def exUser : RequestUser := { uid := 10, role := "user" }

/-- An admin identity. -/
def exAdmin : RequestUser := { uid := 99, role := "admin" }

/-- A regular user who owns none of the example bookings. -/
def exStranger : RequestUser := { uid := 55, role := "user" }

/-- A confirmed booking owned by `exUser`. -/
def exBookingConfirmed : Booking :=
  { id := 100, productId := 1, productName := "Laptop A",
    productImage := "img-a-1", productCategory := "Laptops", userId := 10,
    customerName := "Alice", customerPhone := "123", customerAddress := "Street 1",
    quantity := 2, bookingDate := 20240101, orderDate := 30,
    actualPrice := 100, strikePrice := 120, sellingPrice := 90,
    totalAmount := 180, discountPercentage := 10,
    couponCode := "GIT-AAA-BBBB", status := "confirmed", notes := none,
    cancelledAt := none, cancellationReason := none, completedAt := none }

/-- A cancelled booking owned by `exUser`. -/
def exBookingCancelled : Booking :=
  { exBookingConfirmed with
    id := 101
    couponCode := "GIT-AAA-CCCC"
    status := "cancelled"
    cancelledAt := some 40
    cancellationReason := some "Cancelled by customer" }

/-- A completed booking owned by `exUser`. -/
def exBookingCompleted : Booking :=
  { exBookingConfirmed with
    id := 102
    couponCode := "GIT-AAA-DDDD"
    status := "completed"
    completedAt := some 45 }

/-- The example store. -/
def exStore : Store :=
  { products := [exProduct, exProductOff, exProductInactive],
    bookings := [exBookingConfirmed, exBookingCancelled, exBookingCompleted] }

/-- A well-formed creation request against `exProduct`, whose caller-supplied
snapshot fields disagree with the catalog record. -/
def exReq : CreateReq :=
  { productId := some 1, productName := some "Hacked",
    productImage := some "img-x", productCategory := some "Gaming",
    customerName := some "Alice", customerPhone := some "123",
    customerAddress := some "Street 1", quantity := some 2,
    bookingDate := some 20240101, actualPrice := some 100,
    strikePrice := some 120, sellingPrice := some 90,
    totalAmount := some 180, discountPercentage := some 10 }

/-- The same request aimed at the out-of-stock product. -/
def exReqOff : CreateReq := { exReq with productId := some 2 }

/-- The same request aimed at the soft-deleted (but `"Available"`) product. -/
def exReqInactive : CreateReq := { exReq with productId := some 3 }

/-- A store already holding the coupon code that
`generateCouponCode 100 [1, 2, 3, 4, 5]` produces (`"GIT-2S-1234"`). -/
def exStoreDup : Store :=
  { products := [exProduct],
    bookings := [{ exBookingConfirmed with couponCode := "GIT-2S-1234" }] }

/-! ## Helper lemmas -/

theorem char_toNat_ofNat (n : Nat) (h : n.isValidChar) : (Char.ofNat n).toNat = n := by
  simp only [Char.ofNat, dif_pos h, Char.ofNatAux, Char.toNat, UInt32.toNat]
  simp

theorem toUpper_toNat (c : Char) (h : 97 ≤ c.toNat ∧ c.toNat ≤ 122) :
    (Char.toUpper c).toNat = c.toNat - 32 := by
  simp only [Char.toUpper]
  rw [if_pos (by omega)]
  apply char_toNat_ofNat
  left
  omega

theorem toUpper_of_not_lower (c : Char) (h : ¬(97 ≤ c.toNat ∧ c.toNat ≤ 122)) :
    Char.toUpper c = c := by
  simp only [Char.toUpper]
  rw [if_neg (by omega)]

theorem toUpper_idem (c : Char) : (Char.toUpper c).toUpper = Char.toUpper c := by
  by_cases h : 97 ≤ c.toNat ∧ c.toNat ≤ 122
  · have h2 := toUpper_toNat c h
    exact toUpper_of_not_lower _ (by omega)
  · rw [toUpper_of_not_lower c h]
    exact toUpper_of_not_lower c h

theorem jsToUpper_idem (s : String) : jsToUpper (jsToUpper s) = jsToUpper s := by
  simp only [jsToUpper, List.map_map]
  congr 1
  exact List.map_congr_left (fun c _ => toUpper_idem c)

theorem takeWhile_append_cons {α : Type} (p : α → Bool) (l1 : List α) (x : α)
    (l2 : List α) (h : ∀ a ∈ l1, p a = true) (hx : p x = false) :
    (l1 ++ x :: l2).takeWhile p = l1 ∧ (l1 ++ x :: l2).dropWhile p = x :: l2 := by
  induction l1 with
  | nil => simp [List.takeWhile, List.dropWhile, hx]
  | cons a as ih =>
    have ha : p a = true := h a (by simp)
    have ih2 := ih (fun b hb => h b (by simp [hb]))
    simp [List.takeWhile, List.dropWhile, ha, ih2.1, ih2.2]

theorem findBooking_mem (s : Store) (bid : Nat) (b : Booking)
    (h : findBooking s bid = some b) : b ∈ s.bookings :=
  List.mem_of_find?_eq_some h

theorem storeTimestampInv_saveBooking (s : Store) (b : Booking)
    (hinv : storeTimestampInv s) (hb : timestampInv b) :
    storeTimestampInv (saveBooking s b) := by
  intro x hx
  simp only [saveBooking, List.mem_map] at hx
  obtain ⟨y, hy, hxy⟩ := hx
  by_cases hid : (y.id == b.id) = true
  · rw [if_pos hid] at hxy
    exact hxy ▸ hb
  · rw [if_neg hid] at hxy
    exact hxy ▸ hinv y hy

theorem bookingCreate_ok_spec (s : Store) (doc : BookingDoc) (now : Nat)
    (rand : List Nat) (newId : Nat) (b : Booking) (s1 : Store)
    (h : bookingCreate s doc now rand newId = .ok (b, s1)) :
    doc.productName = some b.productName ∧
    doc.productImage = some b.productImage ∧
    doc.productCategory = some b.productCategory ∧
    b.status = doc.status ∧ b.userId = doc.userId ∧
    b.cancelledAt = none ∧ b.completedAt = none ∧
    b.couponCode = jsToUpper (generateCouponCode now rand) ∧
    s1 = { s with bookings := s.bookings ++ [b] } := by
  unfold bookingCreate at h
  split at h
  next pn pimg pcat heq1 heq2 heq3 =>
    split at h
    · exact absurd h (by simp)
    · split at h
      · exact absurd h (by simp)
      · split at h
        · exact absurd h (by simp)
        · split at h
          · exact absurd h (by simp)
          · split at h
            · exact absurd h (by simp)
            · dsimp only at h
              split at h
              · exact absurd h (by simp)
              · simp only [Except.ok.injEq, Prod.mk.injEq] at h
                obtain ⟨hb, hs⟩ := h
                subst hb
                simp_all
  next => exact absurd h (by simp)

/-- C2: a creation request that passes the required-field check and whose
referenced product exists with `availability ≠ "Available"` is answered with
the conflict response (HTTP 400, "Product is not available for booking" —
the code's rendering of `ConflictError`) and the store is unchanged: no
booking record is created. -/
theorem create_unavailable_product_conflict
    (s : Store) (u : RequestUser) (r : CreateReq) (now : Nat) (rand : List Nat)
    (newId : Nat) (p : Product)
    (hreq : requiredTruthy r = true)
    (hfind : findProduct s (r.productId.getD 0) = some p)
    (havail : p.availability ≠ "Available") :
    createBookingHandler s u r now rand newId =
      (.fail 400 "Product is not available for booking" none, s) := by
  simp only [createBookingHandler, hreq, hfind]
  simp [havail]

/-- C2 witness: the request `exReqOff` against the out-of-stock `exProductOff`
is rejected with the conflict response and `exStore` is unchanged. -/
theorem create_unavailable_product_conflict_witness :
    createBookingHandler exStore exUser exReqOff 100 [1, 2, 3, 4, 5] 500 =
      (.fail 400 "Product is not available for booking" none, exStore) :=
  create_unavailable_product_conflict exStore exUser exReqOff 100 [1, 2, 3, 4, 5]
    500 exProductOff (by decide) (by decide) (by decide)

/-- C4: an authenticated user who is neither the booking's owner nor an
admin gets HTTP 403 (the code's `AuthorizationError`) from the read, cancel
and complete handlers, and the store is unchanged — in particular cancel and
complete perform no mutation when the authorization check fails. -/
theorem nonowner_nonadmin_forbidden
    (s : Store) (u : RequestUser) (bid : Nat) (reason : Option String)
    (now : Nat) (b : Booking)
    (hfind : findBooking s bid = some b)
    (hrole : u.role ≠ "admin")
    (howner : b.userId ≠ u.uid) :
    getBookingHandler s u bid =
      .fail 403 "Not authorized to view this booking" none ∧
    cancelBookingHandler s u bid reason now =
      (.fail 403 "Not authorized to cancel this booking" none, s) ∧
    completeBookingHandler s u bid now =
      (.fail 403 "Not authorized. Admin access required." none, s) := by
  refine ⟨?_, ?_, ?_⟩
  · simp only [getBookingHandler, hfind]
    simp [hrole, howner]
  · simp only [cancelBookingHandler, hfind]
    simp [hrole, howner]
  · simp only [completeBookingHandler]
    simp [hrole]

/-- C4 witness: the stranger (uid 55, role "user") is denied all three
operations on `exUser`'s confirmed booking 100, with `exStore` unchanged. -/
theorem nonowner_nonadmin_forbidden_witness :
    getBookingHandler exStore exStranger 100 =
      .fail 403 "Not authorized to view this booking" none ∧
    cancelBookingHandler exStore exStranger 100 none 77 =
      (.fail 403 "Not authorized to cancel this booking" none, exStore) ∧
    completeBookingHandler exStore exStranger 100 77 =
      (.fail 403 "Not authorized. Admin access required." none, exStore) :=
  nonowner_nonadmin_forbidden exStore exStranger 100 none 77 exBookingConfirmed
    (by decide) (by decide) (by decide)

/-- C1: on a booking whose status is terminal (`"cancelled"` or
`"completed"`), cancel and complete both leave the store unchanged; when the
requester passes the preceding authorization check, the failure is the
HTTP 400 conflict response matching the terminal status (the code's
`ConflictError`).  Hence no operation transitions a booking out of a
terminal state, and the only transitions the handlers ever perform start
from a non-terminal (`"confirmed"`) status. -/
theorem terminal_status_frozen
    (s : Store) (u : RequestUser) (bid : Nat) (reason : Option String)
    (now : Nat) (b : Booking)
    (hfind : findBooking s bid = some b)
    (hterm : b.status = "cancelled" ∨ b.status = "completed") :
    (cancelBookingHandler s u bid reason now).2 = s ∧
    (completeBookingHandler s u bid now).2 = s ∧
    (isOwnerOrAdmin u b = true →
      (cancelBookingHandler s u bid reason now).1 =
        .fail 400 (if b.status = "cancelled" then "Booking is already cancelled"
          else "Cannot cancel a completed booking") none) ∧
    (u.role = "admin" →
      (completeBookingHandler s u bid now).1 =
        .fail 400 (if b.status = "completed"
          then "Booking is already marked as completed"
          else "Cannot complete a cancelled booking") none) := by
  have hne : ¬("cancelled" = "completed") := by decide
  refine ⟨?_, ?_, ?_, ?_⟩
  · simp only [cancelBookingHandler, hfind]
    rcases hterm with h | h <;> rw [h] <;> split <;> simp [hne]
  · simp only [completeBookingHandler, hfind]
    rcases hterm with h | h <;> rw [h] <;> split <;> simp
  · intro hauth
    simp only [isOwnerOrAdmin, Bool.or_eq_true, beq_iff_eq] at hauth
    simp only [cancelBookingHandler, hfind]
    rcases hterm with h | h <;> rw [h] <;> simp_all <;> rw [if_neg (by tauto)]
  · intro hadmin
    simp only [completeBookingHandler, hfind]
    rcases hterm with h | h <;> rw [h] <;> simp_all

/-- C1 witness: with the admin requester, cancelling or completing the
cancelled booking 101 of `exStore` leaves the store unchanged and yields the
two 400 conflict responses. -/
theorem terminal_status_frozen_witness :
    (cancelBookingHandler exStore exAdmin 101 none 77).2 = exStore ∧
    (completeBookingHandler exStore exAdmin 101 77).2 = exStore ∧
    (isOwnerOrAdmin exAdmin exBookingCancelled = true →
      (cancelBookingHandler exStore exAdmin 101 none 77).1 =
        .fail 400 (if exBookingCancelled.status = "cancelled"
          then "Booking is already cancelled"
          else "Cannot cancel a completed booking") none) ∧
    (exAdmin.role = "admin" →
      (completeBookingHandler exStore exAdmin 101 77).1 =
        .fail 400 (if exBookingCancelled.status = "completed"
          then "Booking is already marked as completed"
          else "Cannot complete a cancelled booking") none) :=
  terminal_status_frozen exStore exAdmin 101 none 77 exBookingCancelled
    (by decide) (Or.inl (by decide))

/-- C8: coupon lookup normalises the supplied code with `toUpperCase` before
the exact match, so for every store, requester and string `s` the handler's
full response on `s` equals its response on the uppercased form of `s`
(stored codes are themselves uppercased by the schema's `uppercase: true`
setter, modelled in `bookingCreate`). -/
theorem coupon_lookup_case_insensitive (s : Store) (u : RequestUser)
    (code : String) :
    couponLookupHandler s u code = couponLookupHandler s u (jsToUpper code) := by
  simp only [couponLookupHandler, jsToUpper_idem]

/-- C9 counterexample: fetching the existing, active product 1 of `exStore`
while the view-counter increment fails does not return the product — the
handler answers HTTP 500, contradicting the claim that an increment failure
must not fail the read. -/
theorem product_fetch_increment_failure_counterexample :
    (findProduct exStore 1).map Product.isActive = some true ∧
    (getProductHandler exStore 1 true).1 =
      .fail 500 "Server error while fetching product" none := by
  constructor
  · decide
  · decide

/-- C9 (amended): the view-counter increment is awaited inside the `try`
block before the response is sent, so for an existing active product its
failure fails the whole read with HTTP 500 (store unchanged); only when the
increment succeeds is the product returned, with the view counter bumped. -/
theorem product_fetch_increment_awaited
    (s : Store) (pid : Nat) (p : Product)
    (hfind : findProduct s pid = some p)
    (hactive : p.isActive = true) :
    getProductHandler s pid true =
      (.fail 500 "Server error while fetching product" none, s) ∧
    getProductHandler s pid false = (.ok 200 p, incViews s pid) := by
  simp only [getProductHandler, hfind]
  simp [hactive]

/-- C9 amended witness: product 1 of `exStore` is active; with a failing
increment the fetch answers 500 and leaves the store unchanged, with a
succeeding increment it returns the product and bumps its view counter. -/
theorem product_fetch_increment_awaited_witness :
    getProductHandler exStore 1 true =
      (.fail 500 "Server error while fetching product" none, exStore) ∧
    getProductHandler exStore 1 false = (.ok 200 exProduct, incViews exStore 1) :=
  product_fetch_increment_awaited exStore 1 exProduct (by decide) (by decide)

/-- C3 counterexample: `exReq` successfully books product 1, whose catalog
name is `"Laptop A"`, yet the created booking's `productName` is the
caller-supplied `"Hacked"` — the snapshot fields are not read from the
catalog at creation time, falsifying the claim. -/
theorem create_snapshot_counterexample :
    (findProduct exStore 1).map Product.name = some "Laptop A" ∧
    (createdBooking
        (createBookingHandler exStore exUser exReq 100 [1, 2, 3, 4, 5] 500)).map
      Booking.productName = some "Hacked" := by
  constructor
  · decide
  · decide

/-- C3 (amended): for every successful booking creation, the created
booking's `productName`, `productImage` and `productCategory` equal the
values supplied by the caller in the request body — the handler forwards
`req.body`'s snapshot fields to `Booking.create` and never reads them from
the referenced catalog product. -/
theorem create_snapshot_from_request
    (s : Store) (u : RequestUser) (r : CreateReq) (now : Nat) (rand : List Nat)
    (newId : Nat) (st : Nat) (b : Booking) (s1 : Store)
    (h : createBookingHandler s u r now rand newId = (.ok st b, s1)) :
    r.productName = some b.productName ∧
    r.productImage = some b.productImage ∧
    r.productCategory = some b.productCategory := by
  unfold createBookingHandler at h
  split at h
  · exact absurd h (by simp)
  · split at h
    · exact absurd h (by simp)
    · split at h
      · exact absurd h (by simp)
      · split at h
        · exact absurd h (by simp)
        · next b1 s2 heq =>
          simp only [Prod.mk.injEq, Resp.ok.injEq] at h
          obtain ⟨⟨hst, hb⟩, hs⟩ := h
          subst hb
          have hspec := bookingCreate_ok_spec _ _ _ _ _ _ _ heq
          exact ⟨hspec.1, hspec.2.1, hspec.2.2.1⟩

/-- C3 amended witness: the successful creation via `exReq` carries the
request-body snapshot values. -/
theorem create_snapshot_from_request_witness :
    exReq.productName =
      some ((createdBooking
        (createBookingHandler exStore exUser exReq 100 [1, 2, 3, 4, 5] 500)).getD
          exBookingConfirmed).productName ∧
    exReq.productImage =
      some ((createdBooking
        (createBookingHandler exStore exUser exReq 100 [1, 2, 3, 4, 5] 500)).getD
          exBookingConfirmed).productImage ∧
    exReq.productCategory =
      some ((createdBooking
        (createBookingHandler exStore exUser exReq 100 [1, 2, 3, 4, 5] 500)).getD
          exBookingConfirmed).productCategory :=
  create_snapshot_from_request exStore exUser exReq 100 [1, 2, 3, 4, 5] 500
    201
    ((createdBooking
      (createBookingHandler exStore exUser exReq 100 [1, 2, 3, 4, 5] 500)).getD
        exBookingConfirmed)
    (createBookingHandler exStore exUser exReq 100 [1, 2, 3, 4, 5] 500).2
    (by decide)

/-- C6 counterexample: with `exStoreDup` already holding coupon code
`"GIT-2S-1234"` — exactly what `generateCouponCode 100 [1, 2, 3, 4, 5]`
produces — the creation attempt neither retries with a fresh code nor
surfaces a `ConflictError`: its catch block propagates the raw duplicate-key
persistence error as a generic HTTP 500 response and the store is unchanged,
falsifying the claim. -/
theorem create_duplicate_coupon_counterexample :
    jsToUpper (generateCouponCode 100 [1, 2, 3, 4, 5]) = "GIT-2S-1234" ∧
    (∃ b, b ∈ exStoreDup.bookings ∧ b.couponCode = "GIT-2S-1234") ∧
    createBookingHandler exStoreDup exUser exReq 100 [1, 2, 3, 4, 5] 500 =
      (.fail 500 "Failed to create booking"
        (some "E11000 duplicate key error collection: bookings index: couponCode_1"),
       exStoreDup) := by
  refine ⟨by decide, ⟨{ exBookingConfirmed with couponCode := "GIT-2S-1234" },
    by decide, by decide⟩, by decide⟩

/-- C6 (amended): when persisting the new booking fails with the
coupon-code uniqueness violation, the creation handler does not retry with a
fresh code and does not surface a `ConflictError`: its catch block answers
HTTP 500 `"Failed to create booking"` carrying the raw persistence error
message, and no booking is created (store unchanged). -/
theorem create_duplicate_coupon_raw_error
    (s : Store) (u : RequestUser) (r : CreateReq) (now : Nat) (rand : List Nat)
    (newId : Nat) (p : Product) (m : String)
    (hreq : requiredTruthy r = true)
    (hfind : findProduct s (r.productId.getD 0) = some p)
    (havail : p.availability = "Available")
    (hdup : bookingCreate s (reqDoc u r) now rand newId =
      .error (.duplicateKey m)) :
    createBookingHandler s u r now rand newId =
      (.fail 500 "Failed to create booking" (some m), s) := by
  simp only [createBookingHandler, hreq, hfind, havail, hdup]
  simp [DbError.message]

/-- C6 amended witness: the concrete collision in `exStoreDup` yields the
500 response with the raw duplicate-key message and an unchanged store. -/
theorem create_duplicate_coupon_raw_error_witness :
    createBookingHandler exStoreDup exUser exReq 100 [1, 2, 3, 4, 5] 500 =
      (.fail 500 "Failed to create booking"
        (some "E11000 duplicate key error collection: bookings index: couponCode_1"),
       exStoreDup) :=
  create_duplicate_coupon_raw_error exStoreDup exUser exReq 100 [1, 2, 3, 4, 5]
    500 exProduct
    "E11000 duplicate key error collection: bookings index: couponCode_1"
    (by decide) (by decide) (by decide) (by rfl)

theorem timestampInv_updateStatus_cancelled (b : Booking) (now : Nat)
    (hb : timestampInv b) (h : ¬b.status = "completed") :
    timestampInv (b.updateStatus "cancelled" now) := by
  unfold Booking.updateStatus
  simp only [reduceIte]
  unfold timestampInv at *
  simp_all

theorem timestampInv_updateStatus_completed (b : Booking) (now : Nat)
    (hb : timestampInv b) (h : ¬b.status = "cancelled") :
    timestampInv (b.updateStatus "completed" now) := by
  unfold Booking.updateStatus
  simp only [reduceIte]
  unfold timestampInv at *
  simp_all

theorem timestampInv_setReason (b : Booking) (x : Option String)
    (hb : timestampInv b) : timestampInv { b with cancellationReason := x } := by
  unfold timestampInv at *
  simp_all

/-- C5: the timestamp invariant — `cancelledAt` set iff status is
`"cancelled"`, `completedAt` set iff status is `"completed"` — holds of
every booking in the store after create, cancel and complete, whenever it
held of every booking before; create establishes it for the new record
(status `"confirmed"`, both timestamps unset). -/
theorem timestamps_iff_status_preserved
    (s : Store) (u : RequestUser) (r : CreateReq) (bid : Nat)
    (reason : Option String) (now : Nat) (rand : List Nat) (newId : Nat)
    (hinv : storeTimestampInv s) :
    storeTimestampInv (createBookingHandler s u r now rand newId).2 ∧
    storeTimestampInv (cancelBookingHandler s u bid reason now).2 ∧
    storeTimestampInv (completeBookingHandler s u bid now).2 := by
  refine ⟨?_, ?_, ?_⟩
  · unfold createBookingHandler
    split
    · exact hinv
    · split
      · exact hinv
      · split
        · exact hinv
        · split
          · next heq => exact hinv
          · next b1 s2 heq =>
            obtain ⟨-, -, -, hstat, -, hcan, hcomp, -, hs1⟩ :=
              bookingCreate_ok_spec _ _ _ _ _ _ _ heq
            intro x hx
            simp only [hs1, List.mem_append, List.mem_singleton] at hx
            rcases hx with hx | hx
            · exact hinv x hx
            · subst hx
              unfold timestampInv
              simp [hcan, hcomp, hstat, reqDoc]
  · unfold cancelBookingHandler
    split
    · exact hinv
    · next b heq =>
      have hb := hinv b (findBooking_mem _ _ _ heq)
      dsimp only
      by_cases hauth : ¬(u.role == "admin") = true ∧ ¬(b.userId == u.uid) = true
      · rw [if_pos hauth]
        exact hinv
      · rw [if_neg hauth]
        by_cases hc : b.status = "cancelled"
        · rw [if_pos hc]
          exact hinv
        · rw [if_neg hc]
          by_cases hco : b.status = "completed"
          · rw [if_pos hco]
            exact hinv
          · rw [if_neg hco]
            dsimp only
            have hb1 : timestampInv (b.updateStatus "cancelled" now) :=
              timestampInv_updateStatus_cancelled b now hb hco
            exact storeTimestampInv_saveBooking _ _
              (storeTimestampInv_saveBooking _ _ hinv hb1)
              (timestampInv_setReason _ _ hb1)
  · unfold completeBookingHandler
    by_cases hadmin : u.role ≠ "admin"
    · rw [if_pos hadmin]
      exact hinv
    · rw [if_neg hadmin]
      split
      · exact hinv
      · next b heq =>
        have hb := hinv b (findBooking_mem _ _ _ heq)
        by_cases hco : b.status = "completed"
        · rw [if_pos hco]
          exact hinv
        · rw [if_neg hco]
          by_cases hc : b.status = "cancelled"
          · rw [if_pos hc]
            exact hinv
          · rw [if_neg hc]
            dsimp only
            have hb1 : timestampInv (b.updateStatus "completed" now) :=
              timestampInv_updateStatus_completed b now hb hc
            exact storeTimestampInv_saveBooking _ _
              (storeTimestampInv_saveBooking _ _ hinv hb1) hb1

/-- C5 witness: `exStore` satisfies the invariant and still satisfies it
after a successful creation by the admin, after the admin cancels booking
100, and after the admin completes booking 100. -/
theorem timestamps_iff_status_preserved_witness :
    storeTimestampInv
      (createBookingHandler exStore exAdmin exReq 77 [1, 2, 3, 4, 5] 500).2 ∧
    storeTimestampInv (cancelBookingHandler exStore exAdmin 100 none 77).2 ∧
    storeTimestampInv (completeBookingHandler exStore exAdmin 100 77).2 :=
  timestamps_iff_status_preserved exStore exAdmin exReq 100 none 77
    [1, 2, 3, 4, 5] 500 (by decide)

/-- C10: the creation handler checks only product existence and
`availability === "Available"`, never `isActive`, so a soft-deleted product
whose availability still reads `"Available"` can be booked: a well-formed
request against it yields a confirmed booking appended to the store.  The
soft-delete handler itself only flips `isActive` to `false` on the found
product (in particular its `availability` is untouched). -/
theorem softdeleted_available_product_bookable
    (s : Store) (u : RequestUser) (r : CreateReq) (now : Nat) (rand : List Nat)
    (newId : Nat) (p : Product) (pn pimg pcat : String)
    (hreq : requiredTruthy r = true)
    (hfind : findProduct s (r.productId.getD 0) = some p)
    (hinactive : p.isActive = false)
    (havail : p.availability = "Available")
    (hpn : r.productName = some pn) (hpn2 : ¬pn = "")
    (hpi : r.productImage = some pimg) (hpi2 : ¬pimg = "")
    (hpc : r.productCategory = some pcat) (hpc2 : ¬pcat = "")
    (hcn : ¬jsTrim (r.customerName.getD "") = "")
    (hcp : ¬jsTrim (r.customerPhone.getD "") = "")
    (hca : ¬jsTrim (r.customerAddress.getD "") = "")
    (hdisc : r.discountPercentage.getD 0 ≤ 100)
    (hfresh : ∀ b ∈ s.bookings,
      ¬b.couponCode = jsToUpper (generateCouponCode now rand)) :
    (∃ b, createdBooking (createBookingHandler s u r now rand newId) = some b ∧
      b.status = "confirmed" ∧
      (createBookingHandler s u r now rand newId).2.bookings =
        s.bookings ++ [b]) ∧
    (∀ (s2 : Store) (pid2 : Nat) (q : Product), findProduct s2 pid2 = some q →
      softDeleteProductHandler s2 pid2 false =
        (.ok 200 "Product deleted successfully",
         saveProduct s2 { q with isActive := false })) := by
  constructor
  · have hq : r.quantity.getD 0 ≥ 1 := by
      have : truthyN r.quantity = true := by
        simp only [requiredTruthy, Bool.and_eq_true] at hreq
        exact hreq.1.2
      cases hqq : r.quantity with
      | none => rw [hqq] at this; simp [truthyN] at this
      | some n =>
        rw [hqq] at this
        simp only [truthyN, decide_eq_true_eq] at this
        simp [Option.getD]
        omega
    have hq2 : ¬(r.quantity.getD 0 < 1) := by omega
    have hdisc2 : ¬(r.discountPercentage.getD 0 > 100) := by omega
    have hany : (s.bookings.any
        (fun b => b.couponCode == jsToUpper (generateCouponCode now rand))) =
          false := by
      rw [List.any_eq_false]
      intro b hb
      simp only [beq_iff_eq]
      exact hfresh b hb
    have hcreate : ∃ b s1,
        bookingCreate s (reqDoc u r) now rand newId = .ok (b, s1) := by
      unfold bookingCreate
      simp only [reqDoc, hpn, hpi, hpc]
      simp only [hpn2, hpi2, hpc2, hcn, hcp, hca, hq2, hdisc2, hany]
      exact ⟨_, _, rfl⟩
    obtain ⟨b, s1, hcr⟩ := hcreate
    obtain ⟨-, -, -, hstat, -, -, -, -, hs1⟩ :=
      bookingCreate_ok_spec _ _ _ _ _ _ _ hcr
    refine ⟨b, ?_, ?_, ?_⟩
    · unfold createdBooking createBookingHandler
      simp only [hreq, hfind, havail, hcr]
      simp
    · simp [hstat, reqDoc]
    · unfold createBookingHandler
      simp only [hreq, hfind, havail, hcr]
      simp [hs1]
  · intro s2 pid2 q hfq
    unfold softDeleteProductHandler
    simp only [hfq]
    simp [saveProduct]

/-- C10 witness: `exReqInactive` books the soft-deleted but `"Available"`
product 3 of `exStore`, yielding a confirmed booking; and soft-delete only
flips `isActive` on the found product. -/
theorem softdeleted_available_product_bookable_witness :
    (∃ b, createdBooking
        (createBookingHandler exStore exUser exReqInactive 100 [1, 2, 3, 4, 5]
          500) = some b ∧
      b.status = "confirmed" ∧
      (createBookingHandler exStore exUser exReqInactive 100 [1, 2, 3, 4, 5]
        500).2.bookings = exStore.bookings ++ [b]) ∧
    (∀ (s2 : Store) (pid2 : Nat) (q : Product), findProduct s2 pid2 = some q →
      softDeleteProductHandler s2 pid2 false =
        (.ok 200 "Product deleted successfully",
         saveProduct s2 { q with isActive := false })) :=
  softdeleted_available_product_bookable exStore exUser exReqInactive 100
    [1, 2, 3, 4, 5] 500 exProductInactive "Hacked" "img-x" "Gaming"
    (by decide) (by decide) (by decide) (by decide) (by decide) (by decide)
    (by decide) (by decide) (by decide) (by decide) (by decide) (by decide)
    (by decide) (by decide) (by decide)

theorem digit36_facts : ∀ d, d < 36 →
    isUpperAlnumChar (Char.toUpper (digitChar36 d)) = true ∧
    ((Char.toUpper (digitChar36 d)) != '-') = true := by decide

theorem toBase36Go_mem (fuel : Nat) : ∀ (n : Nat) (acc : List Char),
    (∀ c ∈ acc, ∃ d, d < 36 ∧ c = digitChar36 d) →
    ∀ c ∈ toBase36Go fuel n acc, ∃ d, d < 36 ∧ c = digitChar36 d := by
  induction fuel with
  | zero => exact fun n acc hacc c hc => hacc c hc
  | succ f ih =>
    intro n acc hacc c hc
    unfold toBase36Go at hc
    split at hc
    · exact hacc c hc
    · refine ih (n / 36) _ ?_ c hc
      intro x hx
      simp only [List.mem_cons] at hx
      rcases hx with rfl | hx
      · exact ⟨n % 36, Nat.mod_lt _ (by norm_num), rfl⟩
      · exact hacc x hx

theorem toBase36Go_acc_ne (fuel : Nat) : ∀ (n : Nat) (acc : List Char),
    acc ≠ [] → toBase36Go fuel n acc ≠ [] := by
  induction fuel with
  | zero => exact fun n acc h => h
  | succ f ih =>
    intro n acc h
    unfold toBase36Go
    split
    · exact h
    · exact ih (n / 36) _ (by simp)

theorem natToBase36_ne_nil (n : Nat) : (natToBase36 n).data ≠ [] := by
  unfold natToBase36
  split
  · simp
  · next h =>
    show toBase36Go n n [] ≠ []
    obtain ⟨f, rfl⟩ : ∃ f, n = f + 1 := ⟨n - 1, by omega⟩
    unfold toBase36Go
    rw [if_neg h]
    exact toBase36Go_acc_ne f _ _ (by simp)

theorem natToBase36_chars (n : Nat) :
    ∀ c ∈ (natToBase36 n).data, ∃ d, d < 36 ∧ c = digitChar36 d := by
  unfold natToBase36
  split
  · intro c hc
    simp only [show ("0" : String).data = ['0'] from rfl, List.mem_singleton]
      at hc
    exact ⟨0, by norm_num, by rw [hc]; rfl⟩
  · exact toBase36Go_mem n n [] (by simp)

theorem fracSuffix_chars (rand : List Nat) (h : ∀ d ∈ rand, d < 36) :
    ∀ c ∈ ((fracToString36 rand).data.drop 2).take 4,
      ∃ d, d < 36 ∧ c = digitChar36 d := by
  unfold fracToString36
  split
  · simp
  · intro c hc
    have hdata : ("0." ++ String.mk (rand.map digitChar36)).data =
        '0' :: '.' :: rand.map digitChar36 := by
      simp [String.data_append]
    rw [hdata] at hc
    simp only [List.drop_succ_cons, List.drop_zero] at hc
    have hc2 : c ∈ rand.map digitChar36 := List.take_subset _ _ hc
    simp only [List.mem_map] at hc2
    obtain ⟨d, hd, rfl⟩ := hc2
    exact ⟨d, h d hd, rfl⟩

theorem fracSuffix_len (rand : List Nat) :
    (((fracToString36 rand).data.drop 2).take 4).length ≤ 4 := by
  have := List.length_take 4 ((fracToString36 rand).data.drop 2)
  omega

theorem generateCouponCode_data (now : Nat) (rand : List Nat) :
    (generateCouponCode now rand).data =
      'G' :: 'I' :: 'T' :: '-' ::
        (((natToBase36 now).data.map Char.toUpper) ++
          '-' :: ((((fracToString36 rand).data.drop 2).take 4).map
            Char.toUpper)) := by
  unfold generateCouponCode jsToUpper jsSubstring
  simp [String.data_append]

/-- C7 (amended): over all timestamps and all `Math.random()` values (given
by their base-36 fraction digits), the generated code matches
`GIT-[A-Z0-9]+-[A-Z0-9]{0,4}`: uppercased `GIT-<base36 timestamp>-<suffix>`
where the random suffix has at most — not exactly — four characters
(`Math.random().toString(36).substring(2, 6)` yields fewer than four
characters whenever the fraction has fewer than four base-36 digits). -/
theorem coupon_code_matches_relaxed_pattern (now : Nat) (rand : List Nat)
    (h : ∀ d ∈ rand, d < 36) :
    matchesCouponPatternUpTo (generateCouponCode now rand) = true := by
  unfold matchesCouponPatternUpTo
  rw [generateCouponCode_data]
  set T := (natToBase36 now).data.map Char.toUpper with hT
  set R := (((fracToString36 rand).data.drop 2).take 4).map Char.toUpper
    with hR
  have hTfacts : ∀ c ∈ T, (c != '-') = true := by
    intro c hc
    rw [hT] at hc
    simp only [List.mem_map] at hc
    obtain ⟨x, hx, rfl⟩ := hc
    obtain ⟨d, hd, rfl⟩ := natToBase36_chars now x hx
    exact (digit36_facts d hd).2
  have hTal : ∀ c ∈ T, isUpperAlnumChar c = true := by
    intro c hc
    rw [hT] at hc
    simp only [List.mem_map] at hc
    obtain ⟨x, hx, rfl⟩ := hc
    obtain ⟨d, hd, rfl⟩ := natToBase36_chars now x hx
    exact (digit36_facts d hd).1
  have hRal : ∀ c ∈ R, isUpperAlnumChar c = true := by
    intro c hc
    rw [hR] at hc
    simp only [List.mem_map] at hc
    obtain ⟨x, hx, rfl⟩ := hc
    obtain ⟨d, hd, rfl⟩ := fracSuffix_chars rand h x hx
    exact (digit36_facts d hd).1
  have hTne : T ≠ [] := by
    rw [hT]
    simp only [ne_eq, List.map_eq_nil_iff]
    exact natToBase36_ne_nil now
  have hRlen : R.length ≤ 4 := by
    rw [hR, List.length_map]
    exact fracSuffix_len rand
  obtain ⟨htake, hdrop⟩ :=
    takeWhile_append_cons (fun c => c != '-') T '-' R hTfacts (by decide)
  unfold couponPatternUpTo
  dsimp only
  rw [hdrop, htake]
  simp only [Bool.and_eq_true, List.all_eq_true, decide_eq_true_eq,
    beq_self_eq_true, true_and]
  refine ⟨⟨⟨?_, hTal⟩, hRlen⟩, hRal⟩
  simp [hTne]

/-- C7 amended witness: `Date.now() = 100` and `Math.random() = 0.5`
(fraction digits `[18]`) produce `"GIT-2S-I"`, which matches the relaxed
pattern. -/
theorem coupon_code_matches_relaxed_pattern_witness :
    matchesCouponPatternUpTo (generateCouponCode 100 [18]) = true :=
  coupon_code_matches_relaxed_pattern 100 [18] (by decide)

/-- C7 counterexample: with `Date.now() = 100` and `Math.random() = 0.5` —
whose base-36 rendering is `"0.i"`, so `substring(2, 6)` keeps only `"i"` —
the generator yields `"GIT-2S-I"`, whose random suffix has one character,
not four: the code does not match `GIT-[A-Z0-9]+-[A-Z0-9]{4}`, falsifying
the claim quantified over all random-number inputs. -/
theorem coupon_code_pattern_counterexample :
    generateCouponCode 100 [18] = "GIT-2S-I" ∧
    matchesCouponPattern (generateCouponCode 100 [18]) = false := by
  constructor
  · decide
  · decide
